import Mathlib

/-!
Shallow embedding of the SveltyCMS authentication core:
the Auth facade (src/auth/index.ts), the Redis cache-aside module
(src/databases/redis.ts), and the role/permission registry
(src/auth/mongoDBAuth/roleAdapter.ts together with the types module holding
defaultPermissions and sanitizePermissions).
Timestamps are milliseconds since the Unix epoch, modelled as Nat.
-/

namespace SveltyCMS

/-- The User record as the auth module reads and writes it (src/auth/types via
src/auth/index.ts). `password` and `lockoutUntil` are nullable; `failedAttempts`
may be unset (the code reads it as `failedAttempts || 0`). -/
structure User where
  _id : String
  email : String
  password : Option String := none
  username : Option String := none
  role : Option String := none
  lastAuthMethod : Option String := none
  isRegistered : Option Bool := none
  failedAttempts : Option Nat := none
  lockoutUntil : Option Nat := none
deriving DecidableEq

/-- A partial attribute update as Auth.login passes to db.updateUserAttributes:
an outer `none` means the field is absent from the update object and is kept;
for `lockoutUntil`, `some none` is an explicit null that clears the field. -/
structure UserAttrs where
  failedAttempts : Option Nat := none
  lockoutUntil : Option (Option Nat) := none
deriving DecidableEq

def applyAttrs (u : User) (a : UserAttrs) : User :=
  { u with
    failedAttempts := match a.failedAttempts with
      | some n => some n
      | none => u.failedAttempts
    lockoutUntil := match a.lockoutUntil with
      | some v => v
      | none => u.lockoutUntil }

/-- Modelled from the spec: the Persistence Port getUserByEmail returns the
stored user with that email, or null. -/
def getUserByEmail (db : List User) (email : String) : Option User :=
  db.find? (fun u => u.email == email)

/-- Modelled from the spec: the Persistence Port updateUserAttributes applies
the partial update to every stored user carrying the given id. -/
def updateUserAttributes (db : List User) (id : String) (a : UserAttrs) : List User :=
  db.map (fun u => if u._id == id then applyAttrs u a else u)

/-- The check `user.lockoutUntil && new Date(user.lockoutUntil) > new Date()`
from Auth.login: the lockout is active when the field is set and in the future. -/
def lockoutActive (u : User) (now : Nat) : Bool :=
  match u.lockoutUntil with
  | some t => decide (now < t)
  | none => false

/-- The outcome kinds of Auth.login: a success returns the user, a missing user
or missing password returns null, and the two error kinds are raised. -/
inductive LoginResult where
  | success (u : User)
  | noUser
  | accountLocked (msg : String)
  | invalidCredentials (msg : String)
deriving DecidableEq

/-- The full observable effect of one Auth.login call: its result, the user
store after the call, and whether argon2.verify was invoked during the call. -/
structure LoginOutcome where
  result : LoginResult
  db : List User
  hasherInvoked : Bool
deriving DecidableEq

/-- Auth.login from src/auth/index.ts lines 248-284, with `verify hash password`
standing for argon2.verify and `hasherInvoked` recording whether the flow
reached that call. The catch block rethrows the raised error unchanged. -/
def login (db : List User) (verify : String → String → Bool) (now : Nat)
    (email password : String) : LoginOutcome :=
  match getUserByEmail db email with
  | none => ⟨.noUser, db, false⟩
  | some user =>
    match user.password with
    | none => ⟨.noUser, db, false⟩
    | some hash =>
      if lockoutActive user now then
        ⟨.accountLocked "Account is temporarily locked. Please try again later.", db, false⟩
      else if verify hash password then
        ⟨.success user,
         updateUserAttributes db user._id
           { failedAttempts := some 0, lockoutUntil := some none },
         true⟩
      else
        let failedAttempts := user.failedAttempts.getD 0 + 1
        if 5 ≤ failedAttempts then
          ⟨.accountLocked
             "Account is temporarily locked due to too many failed attempts. Please try again later.",
           updateUserAttributes db user._id
             { failedAttempts := some failedAttempts,
               lockoutUntil := some (some (now + 30 * 60 * 1000)) },
           true⟩
        else
          ⟨.invalidCredentials "Invalid credentials. Please try again.",
           updateUserAttributes db user._id { failedAttempts := some failedAttempts },
           true⟩

/-- The caller-supplied attribute object of Auth.createUser
(`Omit<Partial<User>, '_id'>`): every field optional, including an attempted
`failedAttempts` injection. -/
structure UserData where
  email : Option String := none
  password : Option String := none
  username : Option String := none
  role : Option String := none
  lastAuthMethod : Option String := none
  isRegistered : Option Bool := none
  failedAttempts : Option Nat := none
  lockoutUntil : Option Nat := none
deriving DecidableEq

/-- The attribute object Auth.createUser (src/auth/index.ts lines 24-61) passes
to db.createUser: only the six destructured fields are forwarded, the password
is hashed when present, and failedAttempts is set to 0 unconditionally. -/
def createUserPayload (hash : String → String) (userData : UserData) : UserData :=
  { email := userData.email,
    password := userData.password.map hash,
    username := userData.username,
    role := userData.role,
    lastAuthMethod := userData.lastAuthMethod,
    isRegistered := userData.isRegistered,
    failedAttempts := some 0,
    lockoutUntil := none }

/-- Modelled from the spec: the Persistence Port createUser persists exactly the
attribute record it is given. -/
def dbCreateUser (stored : List UserData) (payload : UserData) : List UserData :=
  stored ++ [payload]

/-- A stored session record (src/auth/types as used by Auth): `expires` is the
absolute expiry timestamp in milliseconds. -/
structure Session where
  session_id : String
  user_id : String
  device_id : String
  expires : Nat
deriving DecidableEq

/-- Typed error kinds raised by the Auth facade flows modelled here. -/
inductive AuthError where
  | validation (msg : String)
  | persistence (msg : String)
deriving DecidableEq

/-- Modelled from the spec: getActiveSessionByDeviceId(user_id, device_id)
returns an existing non-expired session for the pair, or null. -/
def getActiveSessionByDeviceId (store : List Session) (now : Nat)
    (user_id device_id : String) : Option Session :=
  store.find? (fun s =>
    s.user_id == user_id && s.device_id == device_id && decide (now < s.expires))

/-- Modelled from the spec: updateSessionExpiry(session_id, new_ttl) renews the
stored session in place, setting its expiry to now + new_ttl while keeping its
id, and returns the updated record. -/
def updateSessionExpiry (store : List Session) (now : Nat) (s : Session)
    (ttlMs : Nat) : Session × List Session :=
  ({ s with expires := now + ttlMs },
   store.map (fun t =>
     if t.session_id == s.session_id then { t with expires := now + ttlMs } else t))

/-- Modelled from the spec: the Persistence Port createSession stores a new
session for the pair, expiring at now + ttl, under a fresh id `newId`. -/
def dbCreateSession (store : List Session) (now : Nat)
    (newId user_id device_id : String) (ttlMs : Nat) : Session × List Session :=
  let s : Session :=
    { session_id := newId, user_id := user_id, device_id := device_id,
      expires := now + ttlMs }
  (s, store ++ [s])

/-- Auth.createSession from src/auth/index.ts lines 106-140: missing ids throw;
an existing active session for the (user_id, device_id) pair is renewed in
place with the newly requested ttl (doubled when isExtended); otherwise a new
session is created. The ttl defaults to one hour in milliseconds. -/
def createSession (store : List Session) (now : Nat) (newId : String)
    (user_id device_id : String) (expires : Nat := 60 * 60 * 1000)
    (isExtended : Bool := false) : Except AuthError (Session × List Session) :=
  if user_id == "" || device_id == "" then
    .error (.validation "user_id and device_id are required to create a session")
  else
    match getActiveSessionByDeviceId store now user_id device_id with
    | some existingSession =>
      .ok (updateSessionExpiry store now existingSession
        (if isExtended then expires * 2 else expires))
    | none =>
      .ok (dbCreateSession store now newId user_id device_id
        (if isExtended then expires * 2 else expires))

/-- The Redis backing store: key-value pairs, a SET shadowing earlier entries
for the same key. A value is the cached JSON of a User; the stringify/parse
round trip is modelled as the identity on the record. -/
abbrev RedisStore := List (String × User)

/-- getCache from src/databases/redis.ts lines 58-75: a missing client (Redis
disabled or not initialized) yields null, otherwise the stored value for the
key, null when absent. Redis read errors are caught and also yield null. -/
def getCache (redisClient : Option RedisStore) (key : String) : Option User :=
  match redisClient with
  | none => none
  | some st => (st.find? (fun kv => kv.1 == key)).map (fun kv => kv.2)

/-- setCache from src/databases/redis.ts lines 77-94: a missing client skips the
write without error; otherwise the key is set. Redis write errors are caught
and swallowed, so the function never fails. -/
def setCache (redisClient : Option RedisStore) (key : String) (value : User) :
    Option RedisStore :=
  match redisClient with
  | none => none
  | some st => some ((key, value) :: st)

/-- clearCache from src/databases/redis.ts lines 108-123: a missing client skips
the delete without error; a Redis delete error (`delFails`) is caught and
swallowed, leaving the store unchanged; otherwise the key is removed. -/
def clearCache (redisClient : Option RedisStore) (key : String) (delFails : Bool) :
    Option RedisStore :=
  match redisClient with
  | none => none
  | some st => if delFails then some st else some (st.filter (fun kv => kv.1 != key))

/-- getCachedSession from src/databases/redis.ts line 96-98. -/
def getCachedSession (redisClient : Option RedisStore) (sessionId : String) :
    Option User :=
  getCache redisClient ("session:" ++ sessionId)

/-- setCachedSession from src/databases/redis.ts lines 100-102. -/
def setCachedSession (redisClient : Option RedisStore) (sessionId : String)
    (user : User) : Option RedisStore :=
  setCache redisClient ("session:" ++ sessionId) user

/-- clearCachedSession from src/databases/redis.ts lines 104-106. -/
def clearCachedSession (redisClient : Option RedisStore) (sessionId : String)
    (delFails : Bool) : Option RedisStore :=
  clearCache redisClient ("session:" ++ sessionId) delFails

/-- Modelled from the spec: the Persistence Port validateSession returns the
owning user of a session that exists and has not expired, and null otherwise. -/
def dbValidateSession (users : List User) (sessions : List Session) (now : Nat)
    (sid : String) : Option User :=
  match sessions.find? (fun s => s.session_id == sid && decide (now < s.expires)) with
  | some s => users.find? (fun u => u._id == s.user_id)
  | none => none

/-- Auth.validateSession from src/auth/index.ts lines 299-336: an empty (falsy)
session id throws; with Redis enabled a cache hit returns immediately; on a
cache miss the database result is returned, a valid one being written back to
the cache. Returns the found user (or null) together with the cache state. -/
def validateSession (useRedis : Bool) (redisClient : Option RedisStore)
    (users : List User) (sessions : List Session) (now : Nat)
    (session_id : String) : Except AuthError (Option User × Option RedisStore) :=
  if session_id == "" then
    .error (.validation "Failed to validate session: Session ID is undefined")
  else
    match (if useRedis then getCachedSession redisClient session_id else none) with
    | some user => .ok (some user, redisClient)
    | none =>
      match dbValidateSession users sessions now session_id with
      | some user =>
        .ok (some user,
          if useRedis then setCachedSession redisClient session_id user else redisClient)
      | none => .ok (none, redisClient)

/-- Modelled from the spec: the Persistence Port destroySession deletes the
stored session record; on a storage failure (`dbFails`) it fails with a
PersistenceError. -/
def dbDestroySession (store : List Session) (sid : String) (dbFails : Bool) :
    Except AuthError (List Session) :=
  if dbFails then .error (.persistence "Failed to destroy session: storage failure")
  else .ok (store.filter (fun s => s.session_id != sid))

/-- The observable effect of one Auth.destroySession call: its result and
whether each of the two deletions was reached. -/
structure DestroyOutcome where
  result : Except AuthError (List Session × Option RedisStore)
  dbAttempted : Bool
  cacheAttempted : Bool

/-- Auth.destroySession from src/auth/index.ts lines 205-218: the durable delete
runs first inside the try block; only if it succeeds and Redis is enabled is
clearCachedSession reached (whose own failures are swallowed inside redis.ts);
a durable-delete failure is rethrown before the cache eviction is reached. -/
def destroySession (useRedis : Bool) (redisClient : Option RedisStore)
    (sessions : List Session) (session_id : String) (dbFails delFails : Bool) :
    DestroyOutcome :=
  match dbDestroySession sessions session_id dbFails with
  | .error e => { result := .error e, dbAttempted := true, cacheAttempted := false }
  | .ok sessions' =>
    let redisClient' :=
      if useRedis then clearCachedSession redisClient session_id delFails
      else redisClient
    { result := .ok (sessions', redisClient'),
      dbAttempted := true,
      cacheAttempted := useRedis }

/-- The four role names of the types module: adminRole plus flexibleRoles. -/
inductive RoleName where
  | admin
  | developer
  | editor
  | user
deriving DecidableEq, Fintype

/-- The four permission actions of the types module. -/
inductive PermAction where
  | create
  | read
  | write
  | delete
deriving DecidableEq, Fintype

/-- The `roles` constant: [adminRole, ...flexibleRoles]. -/
def roles : List RoleName := [.admin, .developer, .editor, .user]

/-- The `permissions` constant: [create, read, write, delete]. -/
def permissions : List PermAction := [.create, .read, .write, .delete]

/-- JavaScript object-key assignment on an association list, as object spread
behaves: an existing key keeps its position and takes the new value, a new key
is appended. -/
def setKey {α β : Type} [BEq α] : List (α × β) → α → β → List (α × β)
  | [], k, v => [(k, v)]
  | (k0, v0) :: rest, k, v =>
    if k0 == k then (k0, v) :: rest else (k0, v0) :: setKey rest k v

/-- The inner reduce of the `defaultPermissions` constant for one role: admin,
developer and editor set every action true; the user case spreads both the
current action as true and `write: false`, so its final object has write false
and the other three actions true. -/
def defaultPermsFor (role : RoleName) : List (PermAction × Bool) :=
  permissions.foldl
    (fun acc permission =>
      match role with
      | .admin => setKey acc permission true
      | .developer => setKey acc permission true
      | .editor => setKey acc permission true
      | .user => setKey (setKey acc permission true) .write false)
    []

/-- The `defaultPermissions` constant: the outer reduce over `roles`, keyed by
role name. -/
def defaultPermissions : List (RoleName × List (PermAction × Bool)) :=
  roles.foldl (fun acc role => setKey acc role (defaultPermsFor role)) []

/-- The object read `defaultPermissions[r][p]`: undefined is `none`. -/
def defaultPermValue (r : RoleName) (p : PermAction) : Option Bool :=
  ((defaultPermissions.find? (fun rp => rp.1 == r)).map (fun rp => rp.2)).bind
    (fun m => (m.find? (fun pv => pv.1 == p)).map (fun pv => pv.2))

/-- sanitizePermissions from the types module lines 348-366: for each role of
the input (keys in insertion order) keep only the permissions whose value
differs from `defaultPermissions[r][p]`, drop roles with an empty diff, and
return undefined (`none`) when every role was dropped. -/
def sanitizePermissions (ps : List (RoleName × List (PermAction × Bool))) :
    Option (List (RoleName × List (PermAction × Bool))) :=
  let res := ps.foldl
    (fun acc rp =>
      let diff := rp.2.foldl
        (fun acc2 pv =>
          if some pv.2 ≠ defaultPermValue rp.1 pv.1 then acc2 ++ [(pv.1, pv.2)]
          else acc2)
        []
      if diff.length == 0 then acc else acc ++ [(rp.1, diff)])
    []
  if res.length == 0 then none else some res

/-- A full permissions matrix as an input object for sanitizePermissions: all
four roles in canonical order, each with all four actions in canonical order. -/
def fullMatrix (f : RoleName → PermAction → Bool) :
    List (RoleName × List (PermAction × Bool)) :=
  roles.map (fun r => (r, permissions.map (fun p => (p, f r p))))

/-- A stored role document per the RoleSchema of roleAdapter.ts: a required
name, an optional description, and a list of permission ObjectId references
(defaulting to the empty array). -/
structure Role where
  name : String
  description : Option String := none
  permissions : List String := []
deriving DecidableEq

/-- RoleAdapter.getRoleByName (roleAdapter.ts lines 110-119): a mongoose findOne
on the name field, an exact, case-sensitive string match. -/
def getRoleByName (store : List Role) (name : String) : Option Role :=
  store.find? (fun r => r.name == name)

/-- RoleAdapter.createRole (roleAdapter.ts lines 34-44) as initializeDefaultRoles
invokes it: a new document with the given name and description is saved; the
permissions field takes its schema default, the empty array. -/
def createRole (store : List Role) (name description : String) : List Role :=
  store ++ [{ name := name, description := some description, permissions := [] }]

/-- The four seed entries of initializeDefaultRoles. -/
def defaultRoles : List (String × String) :=
  [("admin", "Administrator with all permissions"),
   ("developer", "Developer with elevated permissions"),
   ("editor", "Content editor"),
   ("user", "Regular user with basic permissions")]

/-- One iteration of the initializeDefaultRoles loop: skip a role that already
exists by name, otherwise create it. -/
def seedStep (store : List Role) (rd : String × String) : List Role :=
  match getRoleByName store rd.1 with
  | some _ => store
  | none => createRole store rd.1 rd.2

/-- RoleAdapter.initializeDefaultRoles from roleAdapter.ts lines 177-198. -/
def initializeDefaultRoles (store : List Role) : List Role :=
  defaultRoles.foldl seedStep store

/-! Concrete records reused by counterexamples and witnesses. -/

def aliceLocked : User :=
  { _id := "u1", email := "alice@example.com", password := some "hash1",
    failedAttempts := some 5, lockoutUntil := some 1000000 }

def bobFour : User :=
  { _id := "u2", email := "bob@example.com", password := some "hash2",
    failedAttempts := some 4 }

def carolStale : User :=
  { _id := "u3", email := "carol@example.com", password := some "hash3",
    failedAttempts := some 3, lockoutUntil := some 5 }

def daveNoPw : User :=
  { _id := "u4", email := "dave@example.com", password := none }

def sessionOne : Session :=
  { session_id := "s1", user_id := "u1", device_id := "d1", expires := 1000 }

/-! Helper lemmas shared by the login theorems. -/

/-- A member of an updated user list that carries the targeted id is the result
of applying the attribute update to some original record. -/
theorem exists_applyAttrs_of_mem_update (db : List User) (id : String)
    (a : UserAttrs) (u' : User) (h : u' ∈ updateUserAttributes db id a)
    (hid : u'._id = id) : ∃ x, u' = applyAttrs x a := by
  simp only [updateUserAttributes, List.mem_map] at h
  obtain ⟨x, -, rfl⟩ := h
  by_cases hb : x._id == id
  · exact ⟨x, by simp [hb]⟩
  · rw [if_neg (by simpa using hb)] at hid ⊢
    exact absurd hid (by simpa using hb)

/-- C1: for every user whose lockoutUntil lies in the future, any login attempt
with that email — whatever the password and whatever verify would answer —
returns the AccountLockedError outcome, leaves the user store unchanged and
never invokes the credential hasher; moreover the 5th consecutive failure
(failedAttempts 4, lockout not active, wrong password) itself raises
AccountLockedError and sets the user's lockoutUntil to now + 30 minutes with
failedAttempts 5. -/
theorem c1_locked_account_blocks_login_without_hashing
    (db : List User) (verify : String → String → Bool) (now : Nat)
    (email password : String) (u : User) (pwHash : String) (t : Nat) :
    (getUserByEmail db email = some u → u.password = some pwHash →
      u.lockoutUntil = some t → now < t →
      login db verify now email password =
        ⟨.accountLocked "Account is temporarily locked. Please try again later.",
         db, false⟩)
    ∧ (getUserByEmail db email = some u → u.password = some pwHash →
        lockoutActive u now = false → verify pwHash password = false →
        u.failedAttempts = some 4 →
        (login db verify now email password).result =
          .accountLocked
            "Account is temporarily locked due to too many failed attempts. Please try again later."
        ∧ (login db verify now email password).hasherInvoked = true
        ∧ ∀ u' ∈ (login db verify now email password).db, u'._id = u._id →
            u'.failedAttempts = some 5
            ∧ u'.lockoutUntil = some (now + 30 * 60 * 1000)) := by
  constructor
  · intro hfind hpw hlu hnow
    simp [login, hfind, hpw, lockoutActive, hlu, hnow]
  · intro hfind hpw hlock hv hfa
    have hEq : login db verify now email password =
        ⟨.accountLocked
           "Account is temporarily locked due to too many failed attempts. Please try again later.",
         updateUserAttributes db u._id
           { failedAttempts := some 5,
             lockoutUntil := some (some (now + 30 * 60 * 1000)) },
         true⟩ := by
      simp [login, hfind, hpw, hlock, hv, hfa]
    rw [hEq]
    refine ⟨rfl, rfl, ?_⟩
    intro u' hu' hid
    obtain ⟨x, rfl⟩ := exists_applyAttrs_of_mem_update _ _ _ _ hu' hid
    exact ⟨rfl, rfl⟩

/-- C1 witness: the locked-out user aliceLocked is refused without hashing even
though verify would accept, and bobFour's 5th consecutive failure raises the
lockout error while stamping lockoutUntil = 10 + 30 minutes. -/
theorem c1_witness :
    (login [aliceLocked] (fun _ _ => true) 10 "alice@example.com" "pw" =
      ⟨.accountLocked "Account is temporarily locked. Please try again later.",
       [aliceLocked], false⟩)
    ∧ ((login [bobFour] (fun _ _ => false) 10 "bob@example.com" "pw").result =
        .accountLocked
          "Account is temporarily locked due to too many failed attempts. Please try again later."
      ∧ (login [bobFour] (fun _ _ => false) 10 "bob@example.com" "pw").hasherInvoked = true
      ∧ ∀ u' ∈ (login [bobFour] (fun _ _ => false) 10 "bob@example.com" "pw").db,
          u'._id = bobFour._id →
          u'.failedAttempts = some 5
          ∧ u'.lockoutUntil = some (10 + 30 * 60 * 1000)) :=
  ⟨(c1_locked_account_blocks_login_without_hashing [aliceLocked] (fun _ _ => true)
      10 "alice@example.com" "pw" aliceLocked "hash1" 1000000).1
      (by decide) (by decide) (by decide) (by decide),
   (c1_locked_account_blocks_login_without_hashing [bobFour] (fun _ _ => false)
      10 "bob@example.com" "pw" bobFour "hash2" 0).2
      (by decide) (by decide) (by decide) (by decide) (by decide)⟩

/-- C4: a successful login — the email resolves to a user whose stored hash
verifies, the lockout window not being active — returns the user, consults the
hasher, and persists failedAttempts = 0 and a cleared lockoutUntil, whatever
the previous failedAttempts count or elapsed lockoutUntil were. -/
theorem c4_successful_login_resets_lockout_state
    (db : List User) (verify : String → String → Bool) (now : Nat)
    (email password : String) (u : User) (pwHash : String)
    (hfind : getUserByEmail db email = some u) (hpw : u.password = some pwHash)
    (hlock : lockoutActive u now = false) (hv : verify pwHash password = true) :
    (login db verify now email password).result = .success u
    ∧ ∀ u' ∈ (login db verify now email password).db, u'._id = u._id →
        u'.failedAttempts = some 0 ∧ u'.lockoutUntil = none := by
  have hEq : login db verify now email password =
      ⟨.success u,
       updateUserAttributes db u._id
         { failedAttempts := some 0, lockoutUntil := some none },
       true⟩ := by
    simp [login, hfind, hpw, hlock, hv]
  rw [hEq]
  refine ⟨rfl, ?_⟩
  intro u' hu' hid
  obtain ⟨x, rfl⟩ := exists_applyAttrs_of_mem_update _ _ _ _ hu' hid
  exact ⟨rfl, rfl⟩

/-- C4 witness: carolStale has failedAttempts 3 and an elapsed lockoutUntil of
5; a correct password at time 10 succeeds and resets both fields. -/
theorem c4_witness :
    (login [carolStale] (fun _ _ => true) 10 "carol@example.com" "pw").result =
      .success carolStale
    ∧ ∀ u' ∈ (login [carolStale] (fun _ _ => true) 10 "carol@example.com" "pw").db,
        u'._id = carolStale._id →
        u'.failedAttempts = some 0 ∧ u'.lockoutUntil = none :=
  c4_successful_login_resets_lockout_state [carolStale] (fun _ _ => true) 10
    "carol@example.com" "pw" carolStale "hash3"
    (by decide) (by decide) (by decide) (by decide)

/-- C3 counterexample: the claim says a nonexistent email, a missing password
and a wrong password all report the same generic invalid-credentials outcome
(a typed error). In the code a nonexistent email makes login return null with
no error, while a wrong password raises the invalid-credentials error — two
distinguishable outcomes, so the claim as stated is false at this input. -/
theorem c3_counterexample :
    (login [carolStale] (fun _ _ => false) 10 "ghost@example.com" "pw").result =
      .noUser
    ∧ (login [carolStale] (fun _ _ => false) 10 "carol@example.com" "pw").result =
        .invalidCredentials "Invalid credentials. Please try again."
    ∧ LoginResult.noUser ≠
        LoginResult.invalidCredentials "Invalid credentials. Please try again." := by
  decide

/-- C3 amended: credential failures are not uniform. An unknown email or a user
with no password set makes login return null without raising and without
touching the store; a wrong password while not locked out and below the
lockout threshold raises the typed invalid-credentials error; a wrong password
reaching the threshold, and any attempt while locked out, raise the explicit
lockout messages. -/
theorem c3_login_failure_reporting
    (db : List User) (verify : String → String → Bool) (now : Nat)
    (email password : String) :
    (getUserByEmail db email = none →
      login db verify now email password = ⟨.noUser, db, false⟩)
    ∧ (∀ u, getUserByEmail db email = some u → u.password = none →
        login db verify now email password = ⟨.noUser, db, false⟩)
    ∧ (∀ u pwHash, getUserByEmail db email = some u → u.password = some pwHash →
        lockoutActive u now = false → verify pwHash password = false →
        u.failedAttempts.getD 0 + 1 < 5 →
        (login db verify now email password).result =
          .invalidCredentials "Invalid credentials. Please try again.")
    ∧ (∀ u pwHash, getUserByEmail db email = some u → u.password = some pwHash →
        lockoutActive u now = false → verify pwHash password = false →
        5 ≤ u.failedAttempts.getD 0 + 1 →
        (login db verify now email password).result =
          .accountLocked
            "Account is temporarily locked due to too many failed attempts. Please try again later.")
    ∧ (∀ u pwHash, getUserByEmail db email = some u → u.password = some pwHash →
        lockoutActive u now = true →
        (login db verify now email password).result =
          .accountLocked "Account is temporarily locked. Please try again later.") := by
  refine ⟨?_, ?_, ?_, ?_, ?_⟩
  · intro hfind
    simp [login, hfind]
  · intro u hfind hpw
    simp [login, hfind, hpw]
  · intro u pwHash hfind hpw hlock hv hlt
    simp [login, hfind, hpw, hlock, hv, Nat.not_le_of_lt hlt]
  · intro u pwHash hfind hpw hlock hv hge
    simp [login, hfind, hpw, hlock, hv, hge]
  · intro u pwHash hfind hpw hlock
    simp [login, hfind, hpw, hlock]

/-- C3 witness: each of the five reporting shapes at a concrete input — ghost
email, daveNoPw without a password, carolStale on a wrong password below
threshold, bobFour on the wrong password that reaches the threshold, and
aliceLocked inside her lockout window. -/
theorem c3_witness :
    login [daveNoPw] (fun _ _ => false) 0 "ghost@example.com" "pw" =
      ⟨.noUser, [daveNoPw], false⟩
    ∧ login [daveNoPw] (fun _ _ => false) 0 "dave@example.com" "pw" =
        ⟨.noUser, [daveNoPw], false⟩
    ∧ (login [carolStale] (fun _ _ => false) 10 "carol@example.com" "pw").result =
        .invalidCredentials "Invalid credentials. Please try again."
    ∧ (login [bobFour] (fun _ _ => false) 10 "bob@example.com" "pw").result =
        .accountLocked
          "Account is temporarily locked due to too many failed attempts. Please try again later."
    ∧ (login [aliceLocked] (fun _ _ => false) 10 "alice@example.com" "pw").result =
        .accountLocked "Account is temporarily locked. Please try again later." :=
  ⟨(c3_login_failure_reporting [daveNoPw] (fun _ _ => false) 0
      "ghost@example.com" "pw").1 (by decide),
   (c3_login_failure_reporting [daveNoPw] (fun _ _ => false) 0
      "dave@example.com" "pw").2.1 daveNoPw (by decide) (by decide),
   (c3_login_failure_reporting [carolStale] (fun _ _ => false) 10
      "carol@example.com" "pw").2.2.1 carolStale "hash3"
      (by decide) (by decide) (by decide) (by decide) (by decide),
   (c3_login_failure_reporting [bobFour] (fun _ _ => false) 10
      "bob@example.com" "pw").2.2.2.1 bobFour "hash2"
      (by decide) (by decide) (by decide) (by decide) (by decide),
   (c3_login_failure_reporting [aliceLocked] (fun _ _ => false) 10
      "alice@example.com" "pw").2.2.2.2 aliceLocked "hash1"
      (by decide) (by decide) (by decide)⟩

/-- C2: with both identifiers present, createSession renews an existing active
session for the (user_id, device_id) pair in place — same session id, expiry
now + (extended ? ttl*2 : ttl), and the stored session ids unchanged, so no
second session appears — while with no active session it appends exactly one
new session with that expiry; the ttl parameter defaults to one hour. -/
theorem c2_create_session_renews_per_device
    (store : List Session) (now : Nat) (newId user_id device_id : String)
    (ttl : Nat) (ext : Bool) (hu : user_id ≠ "") (hd : device_id ≠ "") :
    (∀ s, getActiveSessionByDeviceId store now user_id device_id = some s →
      ∃ store',
        createSession store now newId user_id device_id ttl ext =
          .ok ({ s with expires := now + (if ext then ttl * 2 else ttl) }, store')
        ∧ store'.map (fun t => t.session_id) = store.map (fun t => t.session_id))
    ∧ (getActiveSessionByDeviceId store now user_id device_id = none →
        createSession store now newId user_id device_id ttl ext =
          .ok (⟨newId, user_id, device_id, now + (if ext then ttl * 2 else ttl)⟩,
               store ++
                 [⟨newId, user_id, device_id, now + (if ext then ttl * 2 else ttl)⟩]))
    ∧ createSession store now newId user_id device_id =
        createSession store now newId user_id device_id (60 * 60 * 1000) false := by
  have h1 : (user_id == "") = false := by simpa using hu
  have h2 : (device_id == "") = false := by simpa using hd
  refine ⟨?_, ?_, rfl⟩
  · intro s hs
    refine ⟨store.map (fun t =>
      if t.session_id == s.session_id
      then { t with expires := now + (if ext then ttl * 2 else ttl) } else t),
      by simp [createSession, h1, h2, hs, updateSessionExpiry], ?_⟩
    simp only [List.map_map]
    apply List.map_congr_left
    intro t _
    by_cases hb : t.session_id == s.session_id <;> simp [Function.comp, hb]
  · intro hs
    simp [createSession, h1, h2, hs, dbCreateSession]

/-- C2 witness: renewing sessionOne for (u1, d1) at time 50 with ttl 3600000
and extended keeps its id and sets expires = 50 + 7200000; with no active
session the same call creates exactly one, and the one-hour default holds. -/
theorem c2_witness :
    (∃ store',
      createSession [sessionOne] 50 "fresh" "u1" "d1" 3600000 true =
        .ok ({ sessionOne with expires := 50 + (if true then 3600000 * 2 else 3600000) },
             store')
      ∧ store'.map (fun t => t.session_id) = [sessionOne].map (fun t => t.session_id))
    ∧ createSession [] 50 "fresh" "u1" "d1" 3600000 false =
        .ok (⟨"fresh", "u1", "d1", 50 + (if false then 3600000 * 2 else 3600000)⟩,
             [⟨"fresh", "u1", "d1", 50 + (if false then 3600000 * 2 else 3600000)⟩])
    ∧ createSession [] 50 "fresh" "u1" "d1" =
        createSession [] 50 "fresh" "u1" "d1" (60 * 60 * 1000) false :=
  ⟨(c2_create_session_renews_per_device [sessionOne] 50 "fresh" "u1" "d1" 3600000
      true (by decide) (by decide)).1 sessionOne (by decide),
   (c2_create_session_renews_per_device [] 50 "fresh" "u1" "d1" 3600000
      false (by decide) (by decide)).2.1 (by decide),
   (c2_create_session_renews_per_device [] 50 "fresh" "u1" "d1" 3600000
      false (by decide) (by decide)).2.2⟩

/-- C5 counterexample: the empty string is a session id with no session record
(the store is empty, as the second conjunct shows), yet validateSession throws
the Session-ID-is-undefined error instead of returning null — so "for every
nonexistent session id, validateSession returns null and does not throw" is
false at session_id = "". -/
theorem c5_counterexample :
    validateSession false none [] [] 0 "" =
      .error (.validation "Failed to validate session: Session ID is undefined")
    ∧ dbValidateSession [] [] 0 "" = none :=
  ⟨rfl, rfl⟩

/-- C5 amended: for every non-empty session id that the cache does not hold and
that the durable store resolves to no valid (existing, unexpired) session,
validateSession returns null without throwing and leaves the cache unchanged;
an empty session id instead throws a validation error. -/
theorem c5_missing_or_expired_session_returns_null
    (useRedis : Bool) (client : Option RedisStore) (users : List User)
    (sessions : List Session) (now : Nat) (sid : String) (hsid : sid ≠ "")
    (hcache : useRedis = true → getCachedSession client sid = none)
    (hdb : dbValidateSession users sessions now sid = none) :
    validateSession useRedis client users sessions now sid = .ok (none, client) := by
  have h1 : (sid == "") = false := by simpa using hsid
  cases useRedis
  · simp [validateSession, h1, hdb]
  · simp [validateSession, h1, hcache rfl, hdb]

/-- C5 witness: with Redis enabled but the key absent from the cache, session
s1 expired at 1000 and queried at 2000 yields a null result, no error. -/
theorem c5_witness :
    validateSession true (some [("session:other", aliceLocked)]) [aliceLocked]
      [sessionOne] 2000 "s1" = .ok (none, some [("session:other", aliceLocked)]) :=
  c5_missing_or_expired_session_returns_null true
    (some [("session:other", aliceLocked)]) [aliceLocked] [sessionOne] 2000 "s1"
    (by decide) (fun _ => by decide) (by decide)

/-- C6 counterexample: the claim says both the durable delete and the cache
eviction are attempted even if one of them fails. When the durable delete
fails (dbFails), destroySession rethrows from inside the try block before the
eviction line is reached: at this concrete input the call errors out with the
cache eviction never attempted, so the claim as stated is false. -/
theorem c6_counterexample :
    (destroySession true (some [("session:s1", aliceLocked)]) [sessionOne] "s1"
        true false).cacheAttempted = false
    ∧ (destroySession true (some [("session:s1", aliceLocked)]) [sessionOne] "s1"
        true false).result =
        .error (.persistence "Failed to destroy session: storage failure") :=
  ⟨rfl, rfl⟩

/-- C6 amended: destroySession runs the durable delete first. When it succeeds,
the call reports success whatever the cache eviction does — with Redis enabled
the eviction is attempted and any eviction failure is swallowed inside
clearCachedSession — but when the durable delete fails, the error propagates
and the cache eviction is not attempted. -/
theorem c6_destroy_session_failure_semantics
    (useRedis : Bool) (client : Option RedisStore) (sessions : List Session)
    (sid : String) (delFails : Bool) :
    ((destroySession useRedis client sessions sid false delFails).result =
      .ok (sessions.filter (fun s => s.session_id != sid),
           if useRedis then clearCachedSession client sid delFails else client)
    ∧ (destroySession useRedis client sessions sid false delFails).cacheAttempted =
        useRedis)
    ∧ ((destroySession useRedis client sessions sid true delFails).result =
        .error (.persistence "Failed to destroy session: storage failure")
    ∧ (destroySession useRedis client sessions sid true delFails).cacheAttempted =
        false) :=
  ⟨⟨rfl, rfl⟩, ⟨rfl, rfl⟩⟩

/-- C7: sanitizePermissions on a matrix identical to the default returns the
explicit no-overrides signal (undefined, not an empty mapping), and on the
default matrix with exactly one permission of one role flipped it returns a
mapping holding only that role with only that permission. -/
theorem c7_sanitize_permissions_minimal_diff :
    sanitizePermissions (fullMatrix (fun r p => (defaultPermValue r p).getD false)) =
      none
    ∧ ∀ (r0 : RoleName) (p0 : PermAction),
        sanitizePermissions (fullMatrix (fun r p =>
          if r == r0 && p == p0 then !((defaultPermValue r p).getD false)
          else (defaultPermValue r p).getD false)) =
        some [(r0, [(p0, !((defaultPermValue r0 p0).getD false))])] := by
  decide

/-- C8: with caching enabled (an initialized client), setCachedSession followed
by getCachedSession on the same session id returns the stored user; with
caching disabled (no client), getCachedSession always returns null and
setCachedSession is a no-op returning no client and no error. -/
theorem c8_cache_aside_roundtrip (st : RedisStore) (sessionId : String)
    (user : User) :
    getCachedSession (setCachedSession (some st) sessionId user) sessionId =
      some user
    ∧ getCachedSession none sessionId = none
    ∧ setCachedSession none sessionId user = none := by
  refine ⟨?_, rfl, rfl⟩
  simp [getCachedSession, setCachedSession, getCache, setCache]

/-! Helper lemmas about the default-role seeding loop. -/

theorem getRoleByName_append (store extra : List Role) (n : String) :
    getRoleByName (store ++ extra) n =
      (getRoleByName store n).or (getRoleByName extra n) := by
  simp [getRoleByName, List.find?_append]

/-- A role name already present survives one seeding step. -/
theorem isSome_getRoleByName_seedStep (store : List Role) (rd : String × String)
    (n : String) (h : (getRoleByName store n).isSome) :
    (getRoleByName (seedStep store rd) n).isSome := by
  unfold seedStep
  cases hf : getRoleByName store rd.1
  · simp [createRole, getRoleByName_append, Option.isSome_or, h]
  · exact h

/-- After the seeding step for an entry, that entry's name is present. -/
theorem isSome_getRoleByName_seedStep_self (store : List Role)
    (rd : String × String) : (getRoleByName (seedStep store rd) rd.1).isSome := by
  unfold seedStep
  cases hf : getRoleByName store rd.1
  · simp only [createRole, getRoleByName_append, Option.isSome_or]
    simp [getRoleByName]
  · simp [hf]

/-- A seeding step for an entry whose name is already present is a no-op. -/
theorem seedStep_eq_of_isSome (store : List Role) (rd : String × String)
    (h : (getRoleByName store rd.1).isSome) : seedStep store rd = store := by
  unfold seedStep
  cases hf : getRoleByName store rd.1
  · rw [hf] at h; cases h
  · rfl

/-- Folding the seeding step establishes (and preserves) presence of every
processed name. -/
theorem isSome_getRoleByName_foldl_seedStep (l : List (String × String))
    (store : List Role) (rd : String × String)
    (h : rd ∈ l ∨ (getRoleByName store rd.1).isSome) :
    (getRoleByName (l.foldl seedStep store) rd.1).isSome := by
  induction l generalizing store with
  | nil =>
    cases h with
    | inl h => cases h
    | inr h => exact h
  | cons hd tl ih =>
    simp only [List.foldl_cons]
    apply ih
    cases h with
    | inl hmem =>
      rcases List.mem_cons.mp hmem with rfl | hmem'
      · exact Or.inr (isSome_getRoleByName_seedStep_self store rd)
      · exact Or.inl hmem'
    | inr hsome => exact Or.inr (isSome_getRoleByName_seedStep store hd rd.1 hsome)

/-- Folding the seeding step over entries whose names are all present changes
nothing. -/
theorem foldl_seedStep_eq_of_isSome (l : List (String × String))
    (store : List Role) (h : ∀ rd ∈ l, (getRoleByName store rd.1).isSome) :
    l.foldl seedStep store = store := by
  induction l with
  | nil => rfl
  | cons hd tl ih =>
    have h1 : seedStep store hd = store :=
      seedStep_eq_of_isSome store hd (h hd (by simp))
    simp only [List.foldl_cons, h1]
    exact ih (fun rd hrd => h rd (by simp [hrd]))

/-- C9 counterexample: the claim says each seeded role carries its default
permission matrix over the four actions. The loop creates each role from name
and description only, so every seeded role's stored permission set is empty —
no seeded role carries any permission data, let alone the default matrix. -/
theorem c9_counterexample :
    (initializeDefaultRoles []).map (fun r => (r.name, r.permissions)) =
      [("admin", []), ("developer", []), ("editor", []), ("user", [])] := by
  decide

/-- C9 amended: initializeDefaultRoles seeds exactly the four roles admin,
developer, editor and user — their stored permission lists starting empty,
while the name-keyed default permission matrix over create/read/write/delete
lives in the separate defaultPermissions constant, total on the four roles —
and seeding is idempotent: running it again changes nothing, a store already
holding all four names (matched case-sensitively) is returned unchanged, and a
differently-cased name does not count as existing. -/
theorem c9_default_roles_seeding_idempotent :
    (initializeDefaultRoles []).map (fun r => r.name) =
      ["admin", "developer", "editor", "user"]
    ∧ (∀ store, initializeDefaultRoles (initializeDefaultRoles store) =
        initializeDefaultRoles store)
    ∧ (∀ store, (∀ rd ∈ defaultRoles, (getRoleByName store rd.1).isSome) →
        initializeDefaultRoles store = store)
    ∧ (∀ (r : RoleName) (p : PermAction), (defaultPermValue r p).isSome)
    ∧ (initializeDefaultRoles [{ name := "Admin", description := some "cased" }]).map
        (fun r => r.name) = ["Admin", "admin", "developer", "editor", "user"] := by
  refine ⟨by decide, ?_, ?_, by decide, by decide⟩
  · intro store
    exact foldl_seedStep_eq_of_isSome defaultRoles (initializeDefaultRoles store)
      (fun rd hrd => isSome_getRoleByName_foldl_seedStep defaultRoles store rd
        (Or.inl hrd))
  · intro store h
    exact foldl_seedStep_eq_of_isSome defaultRoles store h

/-- C9 witness: a store already holding the four default roles (with differing
descriptions and permission references) passes through unchanged. -/
theorem c9_witness :
    initializeDefaultRoles
      [{ name := "admin", description := some "x", permissions := ["p1"] },
       { name := "developer" }, { name := "editor" }, { name := "user" }] =
      [{ name := "admin", description := some "x", permissions := ["p1"] },
       { name := "developer" }, { name := "editor" }, { name := "user" }] :=
  c9_default_roles_seeding_idempotent.2.2.1
    [{ name := "admin", description := some "x", permissions := ["p1"] },
     { name := "developer" }, { name := "editor" }, { name := "user" }]
    (by decide)

/-- C10: whatever attribute object the caller supplies — including an attempted
failedAttempts injection — the record Auth.createUser hands to the Persistence
Port carries failedAttempts = 0, and the persisted store gains exactly that
record, so every user created through createUser starts at failedAttempts 0. -/
theorem c10_create_user_zeroes_failed_attempts
    (hash : String → String) (userData : UserData) (stored : List UserData) :
    (createUserPayload hash userData).failedAttempts = some 0
    ∧ dbCreateUser stored (createUserPayload hash userData) =
        stored ++ [createUserPayload hash userData]
    ∧ ∀ r ∈ dbCreateUser stored (createUserPayload hash userData),
        r ∈ stored ∨ r.failedAttempts = some 0 := by
  refine ⟨rfl, rfl, ?_⟩
  intro r hr
  rcases List.mem_append.mp hr with h | h
  · exact Or.inl h
  · simp only [List.mem_singleton] at h
    subst h
    exact Or.inr rfl

end SveltyCMS
